import Mathlib

/-!
# Azimut Website — interaction script (`main.js`)

A shallow embedding of the single script of the site: the `DOMContentLoaded`
callback that looks up `.glass-card` and `.container`, attaches the tilt
(`mousemove`) and reset (`mouseleave`) listeners to the container when the
viewport is wider than 768 pixels, and attaches the scroll-lock (`wheel`)
listener to the window.

Numbers.  `clientX`, `clientY`, `innerWidth` and `innerHeight` are taken as
integers (the DOM's 32-bit `long`); the script combines them with `/ 2` and
`/ 50`, so every angle it computes is an integer number of hundredths.
ECMAScript numbers are modelled by `ℚ`: for inputs in that range the
subtraction and the halving are exact in IEEE arithmetic, the division by 50 is
correctly rounded, and the shortest decimal that a template literal prints for
the result is the exact decimal expansion of the rational, which is what
`numberToString` produces.  Negative zero, which prints as `0`, is the rational
`0`.

Events.  A wheel event is taken to be cancelable, so that `preventDefault` in a
non-passive listener cancels its default action.
-/

namespace Azimut

/-! ## Host data -/

/-- The part of `window` the script reads. -/
structure Window where
  innerWidth : Int
  innerHeight : Int
  deriving DecidableEq, Repr

/-- The part of a mouse event the script reads. -/
structure MouseEvent where
  clientX : Int
  clientY : Int
  deriving DecidableEq, Repr

/-- A wheel event while a listener runs: its scroll deltas, the canceled flag
that `preventDefault` raises, and whether the running listener is passive. -/
structure WheelEvent where
  deltaX : Int
  deltaY : Int
  canceled : Bool
  inPassiveListener : Bool
  deriving DecidableEq, Repr

/-- An element, reduced to the one property the script writes:
`style.transform`. -/
structure Element where
  transform : String
  deriving DecidableEq, Repr

/-- The only fault of the script: a property access on `null`. -/
inductive Fault where
  | nullDereference
  deriving DecidableEq, Repr

/-! ## Number to string, as performed by a template literal -/

/-- Digits of the fractional part by long division: `r / d` with `r < d`. -/
def fractionDigits : Nat → Nat → Nat → List Char
  | 0, _, _ => []
  | fuel + 1, r, d =>
    if r = 0 then [] else Nat.digitChar (10 * r / d) :: fractionDigits fuel (10 * r % d) d

/-- The characters of `String(q)`: an optional minus sign, the integer part,
and, unless the value is an integer, a point and the fractional digits.
Negative zero is the rational `0` and prints as `0`. -/
def numberChars (q : ℚ) : List Char :=
  let n := q.num.natAbs
  let d := q.den
  let fraction := fractionDigits 20 (n % d) d
  (if q.num < 0 then ['-'] else []) ++ Nat.toDigits 10 (n / d) ++
    (if fraction = [] then [] else '.' :: fraction)

/-- The string a template literal substitutes for a number. -/
def numberToString (q : ℚ) : String := String.mk (numberChars q)

/-! ## The three listeners -/

/-- Line 12: `(clientY - innerHeight / 2) / 50`. -/
def xRotation (clientY innerHeight : Int) : ℚ := ((clientY : ℚ) - (innerHeight : ℚ) / 2) / 50

/-- Line 13: `(clientX - innerWidth / 2) / 50`. -/
def yRotation (clientX innerWidth : Int) : ℚ := ((clientX : ℚ) - (innerWidth : ℚ) / 2) / 50

/-- The template literal of line 15, with `-xRotation` and `yRotation`
substituted. -/
def tiltTransform (xRotation yRotation : ℚ) : String :=
  "perspective(1000px) rotateX(" ++ numberToString (-xRotation) ++ "deg) rotateY(" ++
    numberToString yRotation ++ "deg)"

/-- The assignment `card.style.transform = value`; faults when `card` is
`null`. -/
def setTransform (card : Option Element) (value : String) : Except Fault Element :=
  match card with
  | none => Except.error Fault.nullDereference
  | some c => Except.ok { c with transform := value }

/-- The `mousemove` listener (lines 8-16).  `card` is the handle captured at
initialization. -/
def mousemoveHandler (window : Window) (e : MouseEvent) (card : Option Element) :
    Except Fault Element :=
  let xRotation := xRotation e.clientY window.innerHeight
  let yRotation := yRotation e.clientX window.innerWidth
  setTransform card (tiltTransform xRotation yRotation)

/-- The `mouseleave` listener (lines 18-20). -/
def mouseleaveHandler (card : Option Element) : Except Fault Element :=
  setTransform card "perspective(1000px) rotateX(0deg) rotateY(0deg)"

/-- The host's `preventDefault`: raises the canceled flag unless the running
listener is passive. -/
def WheelEvent.preventDefault (e : WheelEvent) : WheelEvent :=
  if e.inPassiveListener then e else { e with canceled := true }

/-- The `wheel` listener (lines 24-28). -/
def wheelHandler (window : Window) (e : WheelEvent) : WheelEvent :=
  if window.innerWidth > 768 then e.preventDefault else e

/-! ## The page: elements, listeners, initialization and dispatch -/

/-- The three callbacks the script creates. -/
inductive Callback where
  | tilt
  | reset
  | scrollLock
  deriving DecidableEq, Repr

/-- Event types the script listens to. -/
inductive EventType where
  | mousemove
  | mouseleave
  | wheel
  deriving DecidableEq, Repr

/-- An entry of an event target's listener list. -/
structure Listener where
  type : EventType
  callback : Callback
  passive : Bool
  deriving DecidableEq, Repr

/-- The state the script reads and writes.  `card` and `container` are what
`querySelector` returns for `.glass-card` and `.container` (`none` for `null`);
the container carries its listener list. -/
structure Page where
  card : Option Element
  container : Option (List Listener)
  windowListeners : List Listener
  window : Window
  deriving DecidableEq, Repr

/-- A parsed document on which the script has not run yet. -/
def loadedPage (card : Option Element) (hasContainer : Bool) (window : Window) : Page :=
  { card := card
    container := if hasContainer then some [] else none
    windowListeners := []
    window := window }

/-- Line 8: the tilt callback registered for `mousemove`, default options. -/
def tiltListener : Listener := ⟨EventType.mousemove, Callback.tilt, false⟩

/-- Line 18: the reset callback registered for `mouseleave`, default options. -/
def resetListener : Listener := ⟨EventType.mouseleave, Callback.reset, false⟩

/-- Line 24: the scroll-lock callback registered for `wheel` with
`passive: false`. -/
def scrollLockListener : Listener := ⟨EventType.wheel, Callback.scrollLock, false⟩

/-- `container.addEventListener(type, callback)`; faults when `container` is
`null`. -/
def addContainerListener (p : Page) (l : Listener) : Except Fault Page :=
  match p.container with
  | none => Except.error Fault.nullDereference
  | some ls => Except.ok { p with container := some (ls ++ [l]) }

/-- `window.addEventListener(type, callback, options)`. -/
def addWindowListener (p : Page) (l : Listener) : Page :=
  { p with windowListeners := p.windowListeners ++ [l] }

/-- The statements of the `DOMContentLoaded` callback (lines 3-28), in order;
the first fault aborts the rest. -/
def domContentLoadedBody (p : Page) : Except Fault Page := do
  let p1 ←
    if p.window.innerWidth > 768 then do
      let q ← addContainerListener p tiltListener
      addContainerListener q resetListener
    else pure p
  pure (addWindowListener p1 scrollLockListener)

/-- Result of running the initialization: the page it leaves behind and the
fault that aborted it, if any. -/
structure InitResult where
  page : Page
  fault : Option Fault
  deriving DecidableEq, Repr

/-- The `DOMContentLoaded` callback.  A fault can only come from the first
`container.addEventListener`, before anything was registered, so a faulting
run leaves the page as it found it. -/
def domContentLoaded (p : Page) : InitResult :=
  match domContentLoadedBody p with
  | Except.ok q => ⟨q, none⟩
  | Except.error f => ⟨p, some f⟩

/-- What the host does after initialization. -/
inductive HostEvent where
  | mousemove (e : MouseEvent)
  | mouseleave
  | wheel (deltaX deltaY : Int)
  | resize (window : Window)
  deriving DecidableEq, Repr

/-- Result of dispatching one host event: the page afterwards, the faults
raised by listeners, and whether the default action was canceled. -/
structure Outcome where
  page : Page
  faults : List Fault
  defaultPrevented : Bool
  deriving DecidableEq, Repr

/-- Run one listener of the container on a mouse event.  A faulting listener
leaves the page unchanged and the dispatch goes on. -/
def runMouseListener (e : Option MouseEvent) (o : Outcome) (l : Listener) : Outcome :=
  let result : Option (Except Fault Element) :=
    match l.callback, e with
    | Callback.tilt, some e => some (mousemoveHandler o.page.window e o.page.card)
    | Callback.reset, _ => some (mouseleaveHandler o.page.card)
    | _, _ => none
  match result with
  | none => o
  | some (Except.ok c) => { o with page := { o.page with card := some c } }
  | some (Except.error f) => { o with faults := o.faults ++ [f] }

/-- Run one listener of the window on a wheel event. -/
def runWheelListener (deltaX deltaY : Int) (o : Outcome) (l : Listener) : Outcome :=
  match l.callback with
  | Callback.scrollLock =>
    let e := wheelHandler o.page.window ⟨deltaX, deltaY, o.defaultPrevented, l.passive⟩
    { o with defaultPrevented := e.canceled }
  | _ => o

/-- Dispatch of one host event to the listeners registered for its type. -/
def dispatch (p : Page) : HostEvent → Outcome
  | HostEvent.mousemove e =>
    match p.container with
    | none => ⟨p, [], false⟩
    | some ls =>
      (ls.filter fun l => l.type = EventType.mousemove).foldl (runMouseListener (some e))
        ⟨p, [], false⟩
  | HostEvent.mouseleave =>
    match p.container with
    | none => ⟨p, [], false⟩
    | some ls =>
      (ls.filter fun l => l.type = EventType.mouseleave).foldl (runMouseListener none)
        ⟨p, [], false⟩
  | HostEvent.wheel dx dy =>
    (p.windowListeners.filter fun l => l.type = EventType.wheel).foldl (runWheelListener dx dy)
      ⟨p, [], false⟩
  | HostEvent.resize w => ⟨{ p with window := w }, [], false⟩

/-- The page after a sequence of host events. -/
def run (p : Page) (es : List HostEvent) : Page :=
  es.foldl (fun q ev => (dispatch q ev).page) p

/-- The faults raised along a sequence of host events. -/
def runFaults : Page → List HostEvent → List Fault
  | _, [] => []
  | p, ev :: es => (dispatch p ev).faults ++ runFaults (dispatch p ev).page es

/-! ## Reading a transform back -/

/-- Value of a decimal digit character. -/
def digitValue (c : Char) : Option Nat :=
  if '0' ≤ c ∧ c ≤ '9' then some (c.toNat - 48) else none

/-- Value of the digits after the point. -/
def parseFraction : List Char → Option ℚ
  | [] => some 0
  | c :: cs =>
    match digitValue c, parseFraction cs with
    | some d, some v => some (((d : ℚ) + v) / 10)
    | _, _ => none

/-- Value of an unsigned decimal literal; `acc` is the integer read so far. -/
def parseUnsigned : List Char → Nat → Option ℚ
  | [], acc => some (acc : ℚ)
  | c :: cs, acc =>
    if c = '.' then
      if cs = [] then none else (parseFraction cs).map fun v => (acc : ℚ) + v
    else
      match digitValue c with
      | some d => parseUnsigned cs (10 * acc + d)
      | none => none

/-- Value of a signed decimal literal. -/
def parseNumber (cs : List Char) : Option ℚ :=
  match cs with
  | [] => none
  | c :: rest =>
    if c = '-' then (parseUnsigned rest 0).map fun v => -v
    else parseUnsigned (c :: rest) 0

/-- Remove a literal from the front of the input. -/
def expect (lit : String) (cs : List Char) : Option (List Char) :=
  if lit.data.isPrefixOf cs then some (cs.drop lit.data.length) else none

/-- The two angles, in degrees, of a transform of the shape
`perspective(1000px) rotateX(<a>deg) rotateY(<b>deg)`. -/
def parseTransform (s : String) : Option (ℚ × ℚ) :=
  match expect "perspective(1000px) rotateX(" s.data with
  | none => none
  | some r1 =>
    match parseNumber (r1.takeWhile fun c => c ≠ 'd'),
        expect "deg) rotateY(" (r1.dropWhile fun c => c ≠ 'd') with
    | some a, some r2 =>
      match parseNumber (r2.takeWhile fun c => c ≠ 'd'),
          expect "deg)" (r2.dropWhile fun c => c ≠ 'd') with
      | some b, some [] => some (a, b)
      | _, _ => none
    | _, _ => none


/-! ## Helper lemmas: decimal digits -/

theorem digitValue_digitChar (k : Nat) (hk : k < 10) : digitValue (Nat.digitChar k) = some k := by
  interval_cases k <;> decide

theorem digitChar_ne_point (k : Nat) (hk : k < 10) : Nat.digitChar k ≠ '.' := by
  interval_cases k <;> decide

theorem digitChar_ne_minus (k : Nat) (hk : k < 10) : Nat.digitChar k ≠ '-' := by
  interval_cases k <;> decide

theorem digitChar_ne_d (k : Nat) (hk : k < 10) : Nat.digitChar k ≠ 'd' := by
  interval_cases k <;> decide

theorem toDigitsCore_append (fuel : Nat) : ∀ (n : Nat) (ds tl : List Char),
    Nat.toDigitsCore 10 fuel n (ds ++ tl) = Nat.toDigitsCore 10 fuel n ds ++ tl := by
  induction fuel with
  | zero => intro n ds tl; simp [Nat.toDigitsCore]
  | succ fuel ih =>
    intro n ds tl
    simp only [Nat.toDigitsCore]
    split
    · simp
    · rw [← List.cons_append, ih]

theorem parseUnsigned_toDigitsCore (fuel : Nat) : ∀ (n : Nat) (ds : List Char), n < fuel →
    parseUnsigned (Nat.toDigitsCore 10 fuel n ds) 0 = parseUnsigned ds n := by
  induction fuel with
  | zero => intro n ds h; omega
  | succ fuel ih =>
    intro n ds h
    have hd : n % 10 < 10 := Nat.mod_lt _ (by decide)
    simp only [Nat.toDigitsCore]
    split
    · rename_i h0
      have hn : n % 10 = n := by omega
      have hlt : n < 10 := by omega
      rw [hn]
      simp [parseUnsigned, digitChar_ne_point _ hlt, digitValue_digitChar _ hlt]
    · rename_i h0
      rw [ih (n / 10) _ (by omega)]
      have hn : 10 * (n / 10) + n % 10 = n := by omega
      simp [parseUnsigned, digitChar_ne_point _ hd, digitValue_digitChar _ hd, hn]

theorem toDigitsCore_head (fuel : Nat) : ∀ (n : Nat) (ds : List Char),
    ∃ k rest, k < 10 ∧ Nat.toDigitsCore 10 (fuel + 1) n ds = Nat.digitChar k :: rest := by
  induction fuel with
  | zero =>
    intro n ds
    refine ⟨n % 10, ds, Nat.mod_lt _ (by decide), ?_⟩
    simp [Nat.toDigitsCore]
  | succ fuel ih =>
    intro n ds
    rw [Nat.toDigitsCore]
    split
    · exact ⟨n % 10, ds, Nat.mod_lt _ (by decide), rfl⟩
    · exact ih _ _

theorem toDigitsCore_ne_d (fuel : Nat) : ∀ (n : Nat) (ds : List Char), (∀ c ∈ ds, c ≠ 'd') →
    ∀ c ∈ Nat.toDigitsCore 10 fuel n ds, c ≠ 'd' := by
  induction fuel with
  | zero => intro n ds h; simpa [Nat.toDigitsCore] using h
  | succ fuel ih =>
    intro n ds h
    have hd : n % 10 < 10 := Nat.mod_lt _ (by decide)
    have hcons : ∀ c ∈ Nat.digitChar (n % 10) :: ds, c ≠ 'd' := by
      intro c hc
      rcases List.mem_cons.mp hc with rfl | hc
      · exact digitChar_ne_d _ hd
      · exact h c hc
    rw [Nat.toDigitsCore]
    split
    · exact hcons
    · exact ih _ _ hcons

theorem fractionDigits_ne_d (fuel : Nat) : ∀ (r d : Nat), r < d →
    ∀ c ∈ fractionDigits fuel r d, c ≠ 'd' := by
  induction fuel with
  | zero => intro r d _ c hc; simp [fractionDigits] at hc
  | succ fuel ih =>
    intro r d hr c hc
    have hdpos : 0 < d := by omega
    rw [fractionDigits] at hc
    split at hc
    · simp at hc
    · rcases List.mem_cons.mp hc with rfl | hc
      · apply digitChar_ne_d
        rw [Nat.div_lt_iff_lt_mul hdpos]
        omega
      · exact ih _ _ (Nat.mod_lt _ hdpos) c hc

theorem parseFraction_fractionDigits (fuel : Nat) : ∀ (r d : Nat), r < d →
    (10 ^ fuel * r) % d = 0 → parseFraction (fractionDigits fuel r d) = some ((r : ℚ) / d) := by
  induction fuel with
  | zero =>
    intro r d hr h
    have h0 : r = 0 := by
      rw [pow_zero, one_mul, Nat.mod_eq_of_lt hr] at h
      exact h
    simp [fractionDigits, parseFraction, h0]
  | succ fuel ih =>
    intro r d hr h
    have hdpos : 0 < d := by omega
    rw [fractionDigits]
    split
    · rename_i h0
      simp [parseFraction, h0]
    · have hk : 10 * r / d < 10 := by
        rw [Nat.div_lt_iff_lt_mul hdpos]
        omega
      have hrest : (10 ^ fuel * (10 * r % d)) % d = 0 := by
        rw [Nat.mul_mod, Nat.mod_mod, ← Nat.mul_mod, ← mul_assoc, ← pow_succ]
        exact h
      rw [parseFraction, digitValue_digitChar _ hk, ih _ _ (Nat.mod_lt _ hdpos) hrest]
      have hsplit : d * (10 * r / d) + 10 * r % d = 10 * r := Nat.div_add_mod _ _
      have hq : (d : ℚ) * ((10 * r / d : ℕ) : ℚ) + ((10 * r % d : ℕ) : ℚ) = 10 * (r : ℚ) := by
        exact_mod_cast hsplit
      have hd0 : (d : ℚ) ≠ 0 := by exact_mod_cast hdpos.ne'
      have hq2 : ((10 * r / d : ℕ) : ℚ) * (d : ℚ) + ((10 * r % d : ℕ) : ℚ) = 10 * (r : ℚ) := by
        linarith
      simp only [Option.some.injEq]
      field_simp
      rw [hq2]
      ring

theorem parseUnsigned_digits_tail (m r d : Nat) (hr : r < d)
    (h : (10 ^ 20 * r) % d = 0) :
    parseUnsigned (Nat.toDigits 10 m ++
      (if fractionDigits 20 r d = [] then [] else '.' :: fractionDigits 20 r d)) 0
      = some ((m : ℚ) + (r : ℚ) / d) := by
  have hF := parseFraction_fractionDigits 20 r d hr h
  rw [Nat.toDigits, ← toDigitsCore_append, List.nil_append,
    parseUnsigned_toDigitsCore _ _ _ (Nat.lt_succ_self m)]
  split
  · rename_i hnil
    rw [hnil, parseFraction] at hF
    have h0 : (r : ℚ) / d = 0 := by
      have := Option.some.inj hF
      exact this.symm
    simp [parseUnsigned, h0]
  · rename_i hne
    simp [parseUnsigned, hne, hF]

/-- Reading back the printed form of a number with at most twenty decimals
gives the number. -/
theorem parseNumber_numberChars (q : ℚ) (h : q.den ∣ 10 ^ 20) :
    parseNumber (numberChars q) = some q := by
  have hdpos : 0 < q.den := q.den_pos
  have hr : q.num.natAbs % q.den < q.den := Nat.mod_lt _ hdpos
  have hmod : (10 ^ 20 * (q.num.natAbs % q.den)) % q.den = 0 :=
    Nat.mod_eq_zero_of_dvd (Dvd.dvd.mul_right h _)
  have hU := parseUnsigned_digits_tail (q.num.natAbs / q.den) _ _ hr hmod
  have hval : ((q.num.natAbs / q.den : ℕ) : ℚ) + ((q.num.natAbs % q.den : ℕ) : ℚ) / q.den
      = (q.num.natAbs : ℚ) / q.den := by
    have hsplit : q.den * (q.num.natAbs / q.den) + q.num.natAbs % q.den = q.num.natAbs :=
      Nat.div_add_mod _ _
    have hq : (q.den : ℚ) * ((q.num.natAbs / q.den : ℕ) : ℚ)
        + ((q.num.natAbs % q.den : ℕ) : ℚ) = (q.num.natAbs : ℚ) := by
      exact_mod_cast hsplit
    have hd0 : (q.den : ℚ) ≠ 0 := by exact_mod_cast hdpos.ne'
    field_simp
    linarith
  rw [hval] at hU
  have hq := Rat.num_div_den q
  unfold numberChars
  by_cases hneg : q.num < 0
  · have habs : (q.num.natAbs : ℤ) = -q.num := by omega
    have habs2 : (q.num.natAbs : ℚ) = -(q.num : ℚ) := by
      rw [← Int.cast_natCast, habs, Int.cast_neg]
    simp only [hneg, if_true, List.cons_append, List.nil_append, parseNumber, hU, Option.map_some']
    rw [habs2, neg_div, neg_neg, hq]
  · have habs : (q.num.natAbs : ℤ) = q.num := by omega
    have habs2 : (q.num.natAbs : ℚ) = (q.num : ℚ) := by
      rw [← Int.cast_natCast, habs]
    simp only [hneg, if_false, List.nil_append]
    obtain ⟨k, rest, hk, hhead⟩ := toDigitsCore_head (q.num.natAbs / q.den) (q.num.natAbs / q.den) []
    rw [Nat.toDigits, hhead, List.cons_append] at hU ⊢
    rw [parseNumber]
    simp only [digitChar_ne_minus _ hk, if_false]
    rw [hU, habs2, hq]

theorem numberChars_ne_d (q : ℚ) : ∀ c ∈ numberChars q, c ≠ 'd' := by
  intro c hc
  have hr : q.num.natAbs % q.den < q.den := Nat.mod_lt _ q.den_pos
  unfold numberChars at hc
  simp only [List.mem_append] at hc
  rcases hc with (hc | hc) | hc
  · split at hc
    · rw [List.mem_singleton] at hc
      rw [hc]
      decide
    · simp at hc
  · exact toDigitsCore_ne_d _ _ [] (by simp) c hc
  · split at hc
    · simp at hc
    · rcases List.mem_cons.mp hc with rfl | hc
      · decide
      · exact fractionDigits_ne_d 20 _ _ hr c hc

theorem expect_append (lit : String) (rest : List Char) :
    expect lit (lit.data ++ rest) = some rest := by
  simp [expect]

theorem split_at_d (cs rest : List Char) (h : ∀ c ∈ cs, c ≠ 'd') :
    (cs ++ 'd' :: rest).takeWhile (fun c => c ≠ 'd') = cs ∧
      (cs ++ 'd' :: rest).dropWhile (fun c => c ≠ 'd') = 'd' :: rest := by
  have hp : ∀ a ∈ cs, (fun c => decide (c ≠ 'd')) a = true := by
    intro a ha
    simpa using h a ha
  constructor
  · rw [List.takeWhile_append_of_pos hp]
    simp [List.takeWhile]
  · rw [List.dropWhile_append_of_pos hp]
    simp [List.dropWhile]

/-- Reading back a tilt transform gives the two angles that were printed. -/
theorem parseTransform_tiltTransform (x y : ℚ) (hx : x.den ∣ 10 ^ 20) (hy : y.den ∣ 10 ^ 20) :
    parseTransform (tiltTransform x y) = some (-x, y) := by
  have hnx : (-x).den ∣ 10 ^ 20 := by rw [Rat.den_neg_eq_den]; exact hx
  have e1 : (tiltTransform x y).data =
      "perspective(1000px) rotateX(".data ++ (numberChars (-x) ++ 'd' ::
        ("eg) rotateY(".data ++ (numberChars y ++ 'd' :: "eg)".data))) := by
    simp [tiltTransform, numberToString, String.data_append]
  have e2 : 'd' :: ("eg) rotateY(".data ++ (numberChars y ++ 'd' :: "eg)".data))
      = "deg) rotateY(".data ++ (numberChars y ++ 'd' :: "eg)".data) := rfl
  have e3 : 'd' :: "eg)".data = "deg)".data ++ [] := rfl
  obtain ⟨t1, d1⟩ := split_at_d (numberChars (-x))
    ("eg) rotateY(".data ++ (numberChars y ++ 'd' :: "eg)".data)) (numberChars_ne_d _)
  obtain ⟨t2, d2⟩ := split_at_d (numberChars y) "eg)".data (numberChars_ne_d _)
  rw [parseTransform, e1, expect_append]
  simp only []
  rw [t1, d1, e2, expect_append, parseNumber_numberChars _ hnx]
  simp only []
  rw [t2, d2, e3, expect_append, parseNumber_numberChars _ hy]

theorem xRotation_den (clientY innerHeight : Int) : (xRotation clientY innerHeight).den ∣ 10 ^ 20 := by
  have h : xRotation clientY innerHeight = Rat.divInt (2 * clientY - innerHeight) 100 := by
    rw [xRotation, Rat.divInt_eq_div]
    push_cast
    ring
  have hd := Rat.den_dvd (2 * clientY - innerHeight) 100
  rw [← h] at hd
  have h100 : (xRotation clientY innerHeight).den ∣ 100 := by exact_mod_cast hd
  exact h100.trans (by norm_num)

theorem yRotation_den (clientX innerWidth : Int) : (yRotation clientX innerWidth).den ∣ 10 ^ 20 :=
  xRotation_den clientX innerWidth


/-! ## Helper lemmas: initialization and dispatch -/

theorem init_wide (card : Option Element) (w0 : Window) (h : 768 < w0.innerWidth) :
    domContentLoaded (loadedPage card true w0) =
      ⟨⟨card, some [tiltListener, resetListener], [scrollLockListener], w0⟩, none⟩ := by
  simp [domContentLoaded, domContentLoadedBody, loadedPage, addContainerListener,
    addWindowListener, h, bind, Except.bind, pure, Except.pure]

theorem init_wide_no_container (card : Option Element) (w0 : Window) (h : 768 < w0.innerWidth) :
    domContentLoaded (loadedPage card false w0) =
      ⟨loadedPage card false w0, some Fault.nullDereference⟩ := by
  simp [domContentLoaded, domContentLoadedBody, loadedPage, addContainerListener,
    addWindowListener, h, bind, Except.bind, pure, Except.pure]

theorem init_narrow (card : Option Element) (hasContainer : Bool) (w0 : Window)
    (h : w0.innerWidth ≤ 768) :
    domContentLoaded (loadedPage card hasContainer w0) =
      ⟨⟨card, if hasContainer then some [] else none, [scrollLockListener], w0⟩, none⟩ := by
  have h2 : ¬ 768 < w0.innerWidth := not_lt.mpr h
  simp [domContentLoaded, domContentLoadedBody, loadedPage, addContainerListener,
    addWindowListener, h2, bind, Except.bind, pure, Except.pure]

theorem runMouseListener_frame (e : Option MouseEvent) (o : Outcome) (l : Listener) :
    (runMouseListener e o l).page.container = o.page.container ∧
    (runMouseListener e o l).page.windowListeners = o.page.windowListeners ∧
    (runMouseListener e o l).page.window = o.page.window ∧
    (runMouseListener e o l).defaultPrevented = o.defaultPrevented ∧
    (runMouseListener e o l).page.card.isSome = o.page.card.isSome ∧
    (o.page.card.isSome = true → (runMouseListener e o l).faults = o.faults) := by
  cases hc : o.page.card <;> cases hcb : l.callback <;> cases e <;>
    simp [runMouseListener, hc, hcb, mousemoveHandler, mouseleaveHandler, setTransform]

theorem foldl_runMouseListener_frame (e : Option MouseEvent) (ls : List Listener) :
    ∀ o : Outcome,
    (ls.foldl (runMouseListener e) o).page.container = o.page.container ∧
    (ls.foldl (runMouseListener e) o).page.windowListeners = o.page.windowListeners ∧
    (ls.foldl (runMouseListener e) o).page.window = o.page.window ∧
    (ls.foldl (runMouseListener e) o).defaultPrevented = o.defaultPrevented ∧
    (ls.foldl (runMouseListener e) o).page.card.isSome = o.page.card.isSome ∧
    (o.page.card.isSome = true → (ls.foldl (runMouseListener e) o).faults = o.faults) := by
  induction ls with
  | nil => intro o; simp
  | cons l ls ih =>
    intro o
    obtain ⟨h1, h2, h3, h4, h5, h6⟩ := ih (runMouseListener e o l)
    obtain ⟨g1, g2, g3, g4, g5, g6⟩ := runMouseListener_frame e o l
    rw [List.foldl_cons]
    refine ⟨h1.trans g1, h2.trans g2, h3.trans g3, h4.trans g4, h5.trans g5, ?_⟩
    intro hs
    rw [h6 (by rw [g5]; exact hs), g6 hs]

theorem foldl_runWheelListener_frame (dx dy : Int) (ls : List Listener) :
    ∀ o : Outcome,
    (ls.foldl (runWheelListener dx dy) o).page = o.page ∧
    (ls.foldl (runWheelListener dx dy) o).faults = o.faults := by
  induction ls with
  | nil => intro o; simp
  | cons l ls ih =>
    intro o
    obtain ⟨h1, h2⟩ := ih (runWheelListener dx dy o l)
    rw [List.foldl_cons, h1, h2]
    cases hcb : l.callback <;> simp [runWheelListener, hcb]

theorem dispatch_frame (p : Page) (ev : HostEvent) :
    (dispatch p ev).page.container = p.container ∧
    (dispatch p ev).page.windowListeners = p.windowListeners ∧
    (dispatch p ev).page.card.isSome = p.card.isSome ∧
    (p.card.isSome = true → (dispatch p ev).faults = []) := by
  cases ev with
  | mousemove e =>
    cases hc : p.container with
    | none => simp [dispatch, hc]
    | some ls =>
      obtain ⟨h1, h2, _, _, h5, h6⟩ := foldl_runMouseListener_frame (some e)
        (ls.filter fun l => l.type = EventType.mousemove) ⟨p, [], false⟩
      simp only [dispatch, hc]
      exact ⟨h1.trans hc, h2, h5, h6⟩
  | mouseleave =>
    cases hc : p.container with
    | none => simp [dispatch, hc]
    | some ls =>
      obtain ⟨h1, h2, _, _, h5, h6⟩ := foldl_runMouseListener_frame none
        (ls.filter fun l => l.type = EventType.mouseleave) ⟨p, [], false⟩
      simp only [dispatch, hc]
      exact ⟨h1.trans hc, h2, h5, h6⟩
  | wheel dx dy =>
    obtain ⟨h1, h2⟩ := foldl_runWheelListener_frame dx dy
      (p.windowListeners.filter fun l => l.type = EventType.wheel) ⟨p, [], false⟩
    simp only [dispatch, h1, h2]
    simp
  | resize w => simp [dispatch]

theorem run_append (p : Page) (es fs : List HostEvent) : run p (es ++ fs) = run (run p es) fs := by
  simp [run, List.foldl_append]

theorem run_frame (es : List HostEvent) : ∀ p : Page,
    (run p es).container = p.container ∧
    (run p es).windowListeners = p.windowListeners ∧
    (run p es).card.isSome = p.card.isSome := by
  induction es with
  | nil => intro p; simp [run]
  | cons ev es ih =>
    intro p
    obtain ⟨h1, h2, h3⟩ := ih (dispatch p ev).page
    obtain ⟨g1, g2, g3, _⟩ := dispatch_frame p ev
    have hrun : run p (ev :: es) = run (dispatch p ev).page es := rfl
    rw [hrun]
    exact ⟨h1.trans g1, h2.trans g2, h3.trans g3⟩

theorem runFaults_nil_of_card (es : List HostEvent) : ∀ p : Page, p.card.isSome = true →
    runFaults p es = [] := by
  induction es with
  | nil => intro p _; rfl
  | cons ev es ih =>
    intro p hp
    obtain ⟨_, _, g3, g4⟩ := dispatch_frame p ev
    rw [runFaults, g4 hp, ih _ (by rw [g3]; exact hp)]
    rfl

theorem dispatch_mousemove_wide (p : Page) (e : MouseEvent)
    (hc : p.container = some [tiltListener, resetListener]) :
    dispatch p (HostEvent.mousemove e) =
      match mousemoveHandler p.window e p.card with
      | Except.ok c => ⟨{ p with card := some c }, [], false⟩
      | Except.error f => ⟨p, [f], false⟩ := by
  cases hcard : p.card <;>
    simp [dispatch, hc, tiltListener, resetListener, List.filter, runMouseListener,
      mousemoveHandler, setTransform, hcard]

theorem dispatch_mouseleave_wide (p : Page)
    (hc : p.container = some [tiltListener, resetListener]) :
    dispatch p HostEvent.mouseleave =
      match mouseleaveHandler p.card with
      | Except.ok c => ⟨{ p with card := some c }, [], false⟩
      | Except.error f => ⟨p, [f], false⟩ := by
  cases hcard : p.card <;>
    simp [dispatch, hc, tiltListener, resetListener, List.filter, runMouseListener,
      mouseleaveHandler, setTransform, hcard]

theorem dispatch_wheel_locked (p : Page) (dx dy : Int)
    (hw : p.windowListeners = [scrollLockListener]) :
    dispatch p (HostEvent.wheel dx dy) =
      ⟨p, [], (wheelHandler p.window ⟨dx, dy, false, false⟩).canceled⟩ := by
  simp [dispatch, hw, scrollLockListener, List.filter, runWheelListener]

theorem dispatch_card_without_listeners (p : Page) (ev : HostEvent)
    (hc : p.container = some [] ∨ p.container = none) :
    (dispatch p ev).page.card = p.card := by
  cases ev with
  | mousemove e => rcases hc with hc | hc <;> simp [dispatch, hc]
  | mouseleave => rcases hc with hc | hc <;> simp [dispatch, hc]
  | wheel dx dy =>
    simp only [dispatch]
    rw [(foldl_runWheelListener_frame dx dy _ _).1]
  | resize w => simp [dispatch]

theorem run_card_without_listeners (es : List HostEvent) : ∀ p : Page,
    (p.container = some [] ∨ p.container = none) → (run p es).card = p.card := by
  induction es with
  | nil => intro p _; rfl
  | cons ev es ih =>
    intro p hc
    have hrun : run p (ev :: es) = run (dispatch p ev).page es := rfl
    have hc2 : (dispatch p ev).page.container = some [] ∨ (dispatch p ev).page.container = none := by
      rw [(dispatch_frame p ev).1]; exact hc
    rw [hrun, ih _ hc2, dispatch_card_without_listeners p ev hc]

theorem run_resize (p : Page) (es : List HostEvent) (w : Window) :
    (run p (es ++ [HostEvent.resize w])).window = w := by
  rw [run_append]
  rfl

theorem xRotation_eq_divInt (clientY innerHeight : Int) :
    xRotation clientY innerHeight = Rat.divInt (2 * clientY - innerHeight) 100 := by
  rw [xRotation, Rat.divInt_eq_div]
  push_cast
  ring

theorem yRotation_eq_divInt (clientX innerWidth : Int) :
    yRotation clientX innerWidth = Rat.divInt (2 * clientX - innerWidth) 100 :=
  xRotation_eq_divInt clientX innerWidth

theorem init_present (card : Option Element) (w0 : Window) :
    (domContentLoaded (loadedPage card true w0)).fault = none ∧
    (domContentLoaded (loadedPage card true w0)).page.windowListeners = [scrollLockListener] ∧
    (domContentLoaded (loadedPage card true w0)).page.card = card ∧
    (domContentLoaded (loadedPage card true w0)).page.container =
      some (if 768 < w0.innerWidth then [tiltListener, resetListener] else []) := by
  by_cases h : 768 < w0.innerWidth
  · simp [init_wide card w0 h, h]
  · simp [init_narrow card true w0 (not_lt.mp h), h]

theorem wheel_after_resize (p0 : Page) (es : List HostEvent) (w : Window) (dx dy : Int)
    (h : p0.windowListeners = [scrollLockListener]) :
    (dispatch (run p0 (es ++ [HostEvent.resize w])) (HostEvent.wheel dx dy)).defaultPrevented =
      (wheelHandler w ⟨dx, dy, false, false⟩).canceled := by
  have hl : (run p0 (es ++ [HostEvent.resize w])).windowListeners = [scrollLockListener] := by
    rw [(run_frame _ p0).2.1, h]
  rw [dispatch_wheel_locked _ dx dy hl, run_resize]

theorem wheelHandler_canceled (w : Window) (dx dy : Int) :
    (wheelHandler w ⟨dx, dy, false, false⟩).canceled = decide (768 < w.innerWidth) := by
  by_cases h : 768 < w.innerWidth <;> simp [wheelHandler, WheelEvent.preventDefault, h]

theorem mousemove_on_wide (p : Page) (e : MouseEvent)
    (hc : p.container = some [tiltListener, resetListener]) (hs : p.card.isSome = true) :
    (dispatch p (HostEvent.mousemove e)).page.card =
      some ⟨tiltTransform (xRotation e.clientY p.window.innerHeight)
        (yRotation e.clientX p.window.innerWidth)⟩ ∧
    (dispatch p (HostEvent.mousemove e)).page.window = p.window ∧
    (dispatch p (HostEvent.mousemove e)).page.container = p.container := by
  obtain ⟨c, hcard⟩ := Option.isSome_iff_exists.mp hs
  rw [dispatch_mousemove_wide p e hc]
  simp [mousemoveHandler, setTransform, hcard]

theorem reachable_wide (c : Element) (w0 : Window) (es : List HostEvent)
    (h : 768 < w0.innerWidth) :
    (run (domContentLoaded (loadedPage (some c) true w0)).page es).container =
      some [tiltListener, resetListener] ∧
    (run (domContentLoaded (loadedPage (some c) true w0)).page es).card.isSome = true := by
  obtain ⟨h1, _, h3⟩ := run_frame es (domContentLoaded (loadedPage (some c) true w0)).page
  rw [h1, h3, init_wide (some c) w0 h]
  simp

theorem reachable_narrow (card : Option Element) (hasContainer : Bool) (w0 : Window)
    (es : List HostEvent) (h : w0.innerWidth ≤ 768) :
    (run (domContentLoaded (loadedPage card hasContainer w0)).page es).card = card := by
  rw [run_card_without_listeners, init_narrow card hasContainer w0 h]
  rw [init_narrow card hasContainer w0 h]
  cases hasContainer <;> simp

theorem init_no_container (card : Option Element) (w0 : Window) :
    domContentLoaded (loadedPage card false w0) =
      if 768 < w0.innerWidth then ⟨loadedPage card false w0, some Fault.nullDereference⟩
      else ⟨⟨card, none, [scrollLockListener], w0⟩, none⟩ := by
  by_cases h : 768 < w0.innerWidth
  · rw [if_pos h, init_wide_no_container card w0 h]
  · rw [if_neg h, init_narrow card false w0 (not_lt.mp h)]
    simp

theorem runFaults_nil_of_no_container (es : List HostEvent) : ∀ p : Page,
    p.container = none → runFaults p es = [] := by
  induction es with
  | nil => intro p _; rfl
  | cons ev es ih =>
    intro p hp
    have hnext : (dispatch p ev).page.container = none := by
      rw [(dispatch_frame p ev).1, hp]
    have hnow : (dispatch p ev).faults = [] := by
      cases ev with
      | mousemove e => simp [dispatch, hp]
      | mouseleave => simp [dispatch, hp]
      | wheel dx dy =>
        simp only [dispatch]
        rw [(foldl_runWheelListener_frame dx dy _ _).2]
      | resize w => simp [dispatch]
    rw [runFaults, hnow, ih _ hnext]
    rfl

theorem abs_angle_le (x w : ℚ) (h0 : 0 ≤ x) (h1 : x ≤ w) : |(x - w / 2) / 50| ≤ w / 100 := by
  rw [abs_le]
  constructor <;> linarith

theorem abs_angle_eq_iff (x w : ℚ) (h0 : 0 ≤ x) (h1 : x ≤ w) :
    |(x - w / 2) / 50| = w / 100 ↔ x = 0 ∨ x = w := by
  have hw : (0 : ℚ) ≤ w / 100 := by linarith
  rw [abs_eq hw]
  constructor
  · rintro (h | h)
    · right; linarith
    · left; linarith
  · rintro (h | h)
    · right; rw [h]; ring
    · left; rw [h]; ring

/-! ## The claims -/

/-- Claim C1: for every pointer position and every viewport read at the time of
the event, the mousemove handler sets the card's transform to
`perspective(1000px) rotateX(a deg) rotateY(b deg)` where the printed angles
read back as exactly `a = -((clientY - innerHeight/2)/50)` and
`b = (clientX - innerWidth/2)/50`; for viewport 1000x1000 and pointer (600, 400)
the transform is exactly `perspective(1000px) rotateX(2deg) rotateY(2deg)`. -/
theorem mousemove_sets_tilt_transform (window : Window) (e : MouseEvent) (c : Element) :
    mousemoveHandler window e (some c) = Except.ok ⟨"perspective(1000px) rotateX(" ++
      numberToString (-(((e.clientY : ℚ) - (window.innerHeight : ℚ) / 2) / 50)) ++
      "deg) rotateY(" ++
      numberToString (((e.clientX : ℚ) - (window.innerWidth : ℚ) / 2) / 50) ++ "deg)"⟩ ∧
    (mousemoveHandler window e (some c)).map (fun c1 => parseTransform c1.transform) =
      Except.ok (some (-(((e.clientY : ℚ) - (window.innerHeight : ℚ) / 2) / 50),
        ((e.clientX : ℚ) - (window.innerWidth : ℚ) / 2) / 50)) ∧
    mousemoveHandler ⟨1000, 1000⟩ ⟨600, 400⟩ (some c) =
      Except.ok ⟨"perspective(1000px) rotateX(2deg) rotateY(2deg)"⟩ := by
  refine ⟨rfl, ?_, ?_⟩
  · have h := parseTransform_tiltTransform _ _ (xRotation_den e.clientY window.innerHeight)
      (yRotation_den e.clientX window.innerWidth)
    simp only [mousemoveHandler, setTransform, Except.map, h]
    rfl
  · have h : tiltTransform (xRotation 400 1000) (yRotation 600 1000) =
        "perspective(1000px) rotateX(2deg) rotateY(2deg)" := by
      rw [xRotation_eq_divInt, yRotation_eq_divInt]
      decide
    simp only [mousemoveHandler, setTransform, h]

/-- Claim C2: for every wheel event and every current viewport width, the wheel
handler cancels the event's default action if and only if the width exceeds
768, the width being the one in force when the event is dispatched (whatever
the width at initialization and the events in between); it cancels at 1024 and
769 and does not cancel at 600 nor at exactly 768. -/
theorem wheel_cancels_iff_wide (window : Window) (dx dy : Int) :
    ((wheelHandler window ⟨dx, dy, false, false⟩).canceled = true ↔ 768 < window.innerWidth) ∧
    (∀ (c : Element) (w0 : Window) (es : List HostEvent),
      (dispatch (run (domContentLoaded (loadedPage (some c) true w0)).page
        (es ++ [HostEvent.resize window])) (HostEvent.wheel dx dy)).defaultPrevented = true ↔
          768 < window.innerWidth) ∧
    (∀ h : Int, (wheelHandler ⟨1024, h⟩ ⟨dx, dy, false, false⟩).canceled = true) ∧
    (∀ h : Int, (wheelHandler ⟨769, h⟩ ⟨dx, dy, false, false⟩).canceled = true) ∧
    (∀ h : Int, (wheelHandler ⟨600, h⟩ ⟨dx, dy, false, false⟩).canceled = false) ∧
    (∀ h : Int, (wheelHandler ⟨768, h⟩ ⟨dx, dy, false, false⟩).canceled = false) := by
  refine ⟨?_, ?_, ?_, ?_, ?_, ?_⟩
  · simp [wheelHandler_canceled]
  · intro c w0 es
    rw [wheel_after_resize _ es window dx dy (init_present (some c) w0).2.1]
    simp [wheelHandler_canceled]
  all_goals intro h; simp [wheelHandler_canceled]

/-- Claim C4: for every prior transform of the card, the mouseleave handler
sets the transform to exactly `perspective(1000px) rotateX(0deg) rotateY(0deg)`,
and the reset is idempotent: running the handler twice gives the same state as
running it once, for the handler itself and for the page it is attached to. -/
theorem mouseleave_resets (c : Element) :
    mouseleaveHandler (some c) =
      Except.ok ⟨"perspective(1000px) rotateX(0deg) rotateY(0deg)"⟩ ∧
    (mouseleaveHandler (some c) >>= fun c1 => mouseleaveHandler (some c1)) =
      mouseleaveHandler (some c) ∧
    (∀ (wl : List Listener) (w : Window),
      (dispatch ⟨some c, some [tiltListener, resetListener], wl, w⟩ HostEvent.mouseleave).page.card
        = some ⟨"perspective(1000px) rotateX(0deg) rotateY(0deg)"⟩ ∧
      (dispatch (dispatch ⟨some c, some [tiltListener, resetListener], wl, w⟩
        HostEvent.mouseleave).page HostEvent.mouseleave).page =
      (dispatch ⟨some c, some [tiltListener, resetListener], wl, w⟩ HostEvent.mouseleave).page) := by
  refine ⟨rfl, rfl, ?_⟩
  intro wl w
  simp [dispatch_mouseleave_wide, mouseleaveHandler, setTransform]

/-- Claim C5: a mousemove event with the pointer at the viewport centre yields
both rotation angles equal to 0 and the transform
`perspective(1000px) rotateX(0deg) rotateY(0deg)`, exactly what the mouseleave
reset produces (the negated zero angle prints as 0). -/
theorem mousemove_at_centre (window : Window) (e : MouseEvent) (c : Element)
    (hx : 2 * e.clientX = window.innerWidth) (hy : 2 * e.clientY = window.innerHeight) :
    xRotation e.clientY window.innerHeight = 0 ∧
    yRotation e.clientX window.innerWidth = 0 ∧
    mousemoveHandler window e (some c) =
      Except.ok ⟨"perspective(1000px) rotateX(0deg) rotateY(0deg)"⟩ ∧
    mousemoveHandler window e (some c) = mouseleaveHandler (some c) := by
  have h1 : xRotation e.clientY window.innerHeight = 0 := by
    rw [xRotation, ← hy]
    push_cast
    ring
  have h2 : yRotation e.clientX window.innerWidth = 0 := by
    rw [yRotation, ← hx]
    push_cast
    ring
  have h3 : tiltTransform 0 0 = "perspective(1000px) rotateX(0deg) rotateY(0deg)" := by
    decide
  refine ⟨h1, h2, ?_, ?_⟩ <;>
    simp only [mousemoveHandler, mouseleaveHandler, setTransform, h1, h2, h3]

/-- Witness for C5: viewport 1024x768 with the pointer at (512, 384). -/
theorem mousemove_at_centre_witness :
    mousemoveHandler ⟨1024, 768⟩ ⟨512, 384⟩ (some ⟨"none"⟩) =
      Except.ok ⟨"perspective(1000px) rotateX(0deg) rotateY(0deg)"⟩ :=
  (mousemove_at_centre ⟨1024, 768⟩ ⟨512, 384⟩ ⟨"none"⟩ (by decide) (by decide)).2.2.1


/-- Claim C3: with both elements present, initialization attaches the mousemove
and mouseleave listeners to the container if and only if the viewport width at
initialization exceeds 768; at a width of at most 768 (768 included) the
container gets no listener, so no later sequence of pointer moves, pointer
leaves, wheel events and viewport changes alters the card's transform. -/
theorem tilt_listeners_gated (c : Element) (w0 : Window) :
    (domContentLoaded (loadedPage (some c) true w0)).fault = none ∧
    (domContentLoaded (loadedPage (some c) true w0)).page.container =
      some (if 768 < w0.innerWidth then [tiltListener, resetListener] else []) ∧
    (w0.innerWidth ≤ 768 →
      (domContentLoaded (loadedPage (some c) true w0)).page.container = some [] ∧
      ∀ es : List HostEvent,
        (run (domContentLoaded (loadedPage (some c) true w0)).page es).card = some c) := by
  obtain ⟨h1, _, _, h4⟩ := init_present (some c) w0
  refine ⟨h1, h4, ?_⟩
  intro h
  refine ⟨?_, fun es => reachable_narrow (some c) true w0 es h⟩
  rw [h4, if_neg (not_lt.mpr h)]

/-- Witness for C3: initialization at width exactly 768, then pointer moves
under a viewport resized to 1920x1080. -/
theorem tilt_listeners_gated_witness :
    (run (domContentLoaded (loadedPage (some ⟨"none"⟩) true ⟨768, 1024⟩)).page
      [HostEvent.mousemove ⟨10, 20⟩, HostEvent.resize ⟨1920, 1080⟩,
        HostEvent.mousemove ⟨700, 300⟩, HostEvent.mouseleave]).card = some ⟨"none"⟩ :=
  ((tilt_listeners_gated ⟨"none"⟩ ⟨768, 1024⟩).2.2 (by decide)).2 _

/-- Claim C6: the transform after a mousemove event depends only on that
event's pointer coordinates and the viewport at that event: the handler gives
the same result for any two prior cards; on pages initialized wide, any two
histories that end under the same viewport give the same transform for the
same event; and after two consecutive moves the transform is what the second
move alone produces. -/
theorem mousemove_memoryless (e : MouseEvent) :
    (∀ (window : Window) (c1 c2 : Element),
      mousemoveHandler window e (some c1) = mousemoveHandler window e (some c2)) ∧
    (∀ (c1 c2 : Element) (w1 w2 : Window) (es1 es2 : List HostEvent),
      768 < w1.innerWidth → 768 < w2.innerWidth →
      (run (domContentLoaded (loadedPage (some c1) true w1)).page es1).window =
        (run (domContentLoaded (loadedPage (some c2) true w2)).page es2).window →
      (dispatch (run (domContentLoaded (loadedPage (some c1) true w1)).page es1)
          (HostEvent.mousemove e)).page.card =
        (dispatch (run (domContentLoaded (loadedPage (some c2) true w2)).page es2)
          (HostEvent.mousemove e)).page.card) ∧
    (∀ (c : Element) (w0 : Window) (es : List HostEvent) (e1 : MouseEvent),
      768 < w0.innerWidth →
      (dispatch (dispatch (run (domContentLoaded (loadedPage (some c) true w0)).page es)
          (HostEvent.mousemove e1)).page (HostEvent.mousemove e)).page.card =
        (dispatch (run (domContentLoaded (loadedPage (some c) true w0)).page es)
          (HostEvent.mousemove e)).page.card) := by
  refine ⟨fun _ _ _ => rfl, ?_, ?_⟩
  · intro c1 c2 w1 w2 es1 es2 h1 h2 hw
    obtain ⟨a1, a2⟩ := reachable_wide c1 w1 es1 h1
    obtain ⟨b1, b2⟩ := reachable_wide c2 w2 es2 h2
    rw [(mousemove_on_wide _ e a1 a2).1, (mousemove_on_wide _ e b1 b2).1, hw]
  · intro c w0 es e1 h
    obtain ⟨a1, a2⟩ := reachable_wide c w0 es h
    obtain ⟨m1, m2, m3⟩ := mousemove_on_wide _ e1 a1 a2
    have hs : (dispatch (run (domContentLoaded (loadedPage (some c) true w0)).page es)
        (HostEvent.mousemove e1)).page.card.isSome = true := by rw [m1]; rfl
    rw [(mousemove_on_wide _ e (m3.trans a1) hs).1, (mousemove_on_wide _ e a1 a2).1, m2]

/-- Witness for C6: two different histories, both ending under the viewport
1200x800, followed by the same pointer move. -/
theorem mousemove_memoryless_witness :
    (dispatch (run (domContentLoaded (loadedPage (some ⟨"none"⟩) true ⟨1024, 768⟩)).page
        ([HostEvent.mousemove ⟨3, 4⟩, HostEvent.mouseleave] ++ [HostEvent.resize ⟨1200, 800⟩]))
          (HostEvent.mousemove ⟨700, 300⟩)).page.card =
      (dispatch (run (domContentLoaded (loadedPage (some ⟨"scale(2)"⟩) true ⟨1920, 1080⟩)).page
        ([HostEvent.wheel 0 120] ++ [HostEvent.resize ⟨1200, 800⟩]))
          (HostEvent.mousemove ⟨700, 300⟩)).page.card :=
  (mousemove_memoryless ⟨700, 300⟩).2.1 ⟨"none"⟩ ⟨"scale(2)"⟩ ⟨1024, 768⟩ ⟨1920, 1080⟩ _ _
    (by decide) (by decide) ((run_resize _ _ _).trans (run_resize _ _ _).symm)

/-- Claim C7: the tilt gate is decided by the viewport width at initialization
and the scroll gate by the width at each wheel event.  After initialization at
a width above 768 and a later resize to at most 768, a mousemove still rewrites
the transform by the tilt formula while a wheel event is not cancelled; after
initialization at a width of at most 768 and a later resize above 768, no event
sequence changes the transform while wheel events are cancelled. -/
theorem gate_asymmetry (c : Element) (w0 w1 : Window) (es : List HostEvent) (e : MouseEvent)
    (dx dy : Int) :
    (768 < w0.innerWidth → w1.innerWidth ≤ 768 →
      (dispatch (run (domContentLoaded (loadedPage (some c) true w0)).page
          (es ++ [HostEvent.resize w1])) (HostEvent.mousemove e)).page.card =
        some ⟨tiltTransform (xRotation e.clientY w1.innerHeight)
          (yRotation e.clientX w1.innerWidth)⟩ ∧
      (dispatch (run (domContentLoaded (loadedPage (some c) true w0)).page
          (es ++ [HostEvent.resize w1])) (HostEvent.wheel dx dy)).defaultPrevented = false) ∧
    (w0.innerWidth ≤ 768 → 768 < w1.innerWidth →
      (∀ es2 : List HostEvent,
        (run (domContentLoaded (loadedPage (some c) true w0)).page
          (es ++ [HostEvent.resize w1] ++ es2)).card = some c) ∧
      (dispatch (run (domContentLoaded (loadedPage (some c) true w0)).page
          (es ++ [HostEvent.resize w1])) (HostEvent.mousemove e)).page.card = some c ∧
      (dispatch (run (domContentLoaded (loadedPage (some c) true w0)).page
          (es ++ [HostEvent.resize w1])) (HostEvent.wheel dx dy)).defaultPrevented = true) := by
  have hwheel := wheel_after_resize _ es w1 dx dy (init_present (some c) w0).2.1
  constructor
  · intro h0 h1
    obtain ⟨a1, a2⟩ := reachable_wide c w0 (es ++ [HostEvent.resize w1]) h0
    refine ⟨?_, ?_⟩
    · rw [(mousemove_on_wide _ e a1 a2).1, run_resize]
    · rw [hwheel, wheelHandler_canceled]
      simp [not_lt.mpr h1]
  · intro h0 h1
    refine ⟨fun es2 => reachable_narrow (some c) true w0 _ h0, ?_, ?_⟩
    · have h := reachable_narrow (some c) true w0
        (es ++ [HostEvent.resize w1] ++ [HostEvent.mousemove e]) h0
      rw [run_append] at h
      exact h
    · rw [hwheel, wheelHandler_canceled]
      simp [h1]

/-- Witness for C7: initialization at 1024x768, a pointer move, then a resize
to 600x800. -/
theorem gate_asymmetry_witness :
    (dispatch (run (domContentLoaded (loadedPage (some ⟨"none"⟩) true ⟨1024, 768⟩)).page
        ([HostEvent.mousemove ⟨3, 4⟩] ++ [HostEvent.resize ⟨600, 800⟩]))
          (HostEvent.mousemove ⟨400, 300⟩)).page.card =
      some ⟨tiltTransform (xRotation 300 800) (yRotation 400 600)⟩ ∧
    (dispatch (run (domContentLoaded (loadedPage (some ⟨"none"⟩) true ⟨1024, 768⟩)).page
        ([HostEvent.mousemove ⟨3, 4⟩] ++ [HostEvent.resize ⟨600, 800⟩]))
          (HostEvent.wheel 0 120)).defaultPrevented = false :=
  (gate_asymmetry ⟨"none"⟩ ⟨1024, 768⟩ ⟨600, 800⟩ [HostEvent.mousemove ⟨3, 4⟩] ⟨400, 300⟩
    0 120).1 (by decide) (by decide)

/-- Counterexample to C8 as stated: with `.container` missing at viewport
1024x768, initialization itself faults at the first `addEventListener` and
leaves the window without the wheel listener. -/
theorem missing_container_faults_at_registration :
    (domContentLoaded (loadedPage (some ⟨"none"⟩) false ⟨1024, 768⟩)).fault =
      some Fault.nullDereference ∧
    (domContentLoaded (loadedPage (some ⟨"none"⟩) false ⟨1024, 768⟩)).page.windowListeners = [] := by
  decide

/-- Claim C8, amended.  With `.glass-card` missing and the container present,
initialization completes without a fault for every viewport width and registers
its listeners, the wheel listener included; the fault comes later, each time
the mousemove or the mouseleave handler runs, and never from a wheel event.
With `.container` missing, initialization completes without a fault exactly
when the width is at most 768, registering only the wheel listener, after which
no event faults; at a width above 768 it faults at registration and registers
nothing. -/
theorem missing_element_faults (w0 : Window) :
    ((domContentLoaded (loadedPage none true w0)).fault = none ∧
      (domContentLoaded (loadedPage none true w0)).page.windowListeners = [scrollLockListener] ∧
      (domContentLoaded (loadedPage none true w0)).page.container =
        some (if 768 < w0.innerWidth then [tiltListener, resetListener] else []) ∧
      (768 < w0.innerWidth → ∀ (es : List HostEvent) (e : MouseEvent) (dx dy : Int),
        (dispatch (run (domContentLoaded (loadedPage none true w0)).page es)
          (HostEvent.mousemove e)).faults = [Fault.nullDereference] ∧
        (dispatch (run (domContentLoaded (loadedPage none true w0)).page es)
          HostEvent.mouseleave).faults = [Fault.nullDereference] ∧
        (dispatch (run (domContentLoaded (loadedPage none true w0)).page es)
          (HostEvent.wheel dx dy)).faults = [])) ∧
    (∀ card : Option Element,
      ((domContentLoaded (loadedPage card false w0)).fault = none ↔ w0.innerWidth ≤ 768) ∧
      (w0.innerWidth ≤ 768 →
        (domContentLoaded (loadedPage card false w0)).page.windowListeners =
          [scrollLockListener] ∧
        ∀ es : List HostEvent,
          runFaults (domContentLoaded (loadedPage card false w0)).page es = []) ∧
      (768 < w0.innerWidth →
        (domContentLoaded (loadedPage card false w0)).fault = some Fault.nullDereference ∧
        (domContentLoaded (loadedPage card false w0)).page.windowListeners = [] ∧
        (domContentLoaded (loadedPage card false w0)).page.container = none)) := by
  constructor
  · obtain ⟨h1, h2, h3, h4⟩ := init_present none w0
    refine ⟨h1, h2, h4, ?_⟩
    intro h es e dx dy
    obtain ⟨f1, f2, f3⟩ := run_frame es (domContentLoaded (loadedPage none true w0)).page
    have hc : (run (domContentLoaded (loadedPage none true w0)).page es).container =
        some [tiltListener, resetListener] := by
      rw [f1, h4, if_pos h]
    have hcard : (run (domContentLoaded (loadedPage none true w0)).page es).card = none := by
      rw [h3] at f3
      simpa using f3
    have hl : (run (domContentLoaded (loadedPage none true w0)).page es).windowListeners =
        [scrollLockListener] := by
      rw [f2, h2]
    refine ⟨?_, ?_, ?_⟩
    · rw [dispatch_mousemove_wide _ e hc]
      simp [mousemoveHandler, setTransform, hcard]
    · rw [dispatch_mouseleave_wide _ hc]
      simp [mouseleaveHandler, setTransform, hcard]
    · rw [dispatch_wheel_locked _ dx dy hl]
  · intro card
    rw [init_no_container card w0]
    by_cases h : 768 < w0.innerWidth
    · simp only [if_pos h]
      refine ⟨?_, ?_, ?_⟩
      · simp [h]
      · intro h2
        exact absurd h (not_lt.mpr h2)
      · intro _
        simp [loadedPage]
    · simp only [if_neg h]
      refine ⟨?_, ?_, ?_⟩
      · simp [not_lt.mp h]
      · intro _
        exact ⟨trivial, fun es => runFaults_nil_of_no_container es _ rfl⟩
      · intro h2
        exact absurd h2 h

/-- Witness for C8: card missing at viewport 1024x768; the first pointer move
after initialization raises the null-dereference fault. -/
theorem missing_element_faults_witness :
    (dispatch (run (domContentLoaded (loadedPage none true ⟨1024, 768⟩)).page [])
      (HostEvent.mousemove ⟨10, 20⟩)).faults = [Fault.nullDereference] :=
  ((missing_element_faults ⟨1024, 768⟩).1.2.2.2 (by decide) [] ⟨10, 20⟩ 0 0).1

/-- Claim C9: with both elements present each of the three handlers completes
without a fault and applies its whole effect, for every integer pointer
position and viewport size, zero sizes and negative or out-of-viewport
coordinates included; no event sequence after initialization raises a fault. -/
theorem handlers_never_fault (window : Window) (e : MouseEvent) (c : Element) (dx dy : Int) :
    mousemoveHandler window e (some c) =
      Except.ok ⟨tiltTransform (xRotation e.clientY window.innerHeight)
        (yRotation e.clientX window.innerWidth)⟩ ∧
    mouseleaveHandler (some c) =
      Except.ok ⟨"perspective(1000px) rotateX(0deg) rotateY(0deg)"⟩ ∧
    (wheelHandler window ⟨dx, dy, false, false⟩).canceled = decide (768 < window.innerWidth) ∧
    (∀ es : List HostEvent,
      (domContentLoaded (loadedPage (some c) true window)).fault = none ∧
      runFaults (domContentLoaded (loadedPage (some c) true window)).page es = []) ∧
    mousemoveHandler ⟨0, 0⟩ ⟨-5, 2000⟩ (some c) =
      Except.ok ⟨"perspective(1000px) rotateX(-40deg) rotateY(-0.1deg)"⟩ := by
  refine ⟨rfl, rfl, wheelHandler_canceled window dx dy, ?_, ?_⟩
  · intro es
    obtain ⟨h1, _, h3, _⟩ := init_present (some c) window
    exact ⟨h1, runFaults_nil_of_card es _ (by rw [h3]; rfl)⟩
  · have h : tiltTransform (xRotation 2000 0) (yRotation (-5) 0) =
        "perspective(1000px) rotateX(-40deg) rotateY(-0.1deg)" := by
      rw [xRotation_eq_divInt, yRotation_eq_divInt]
      decide
    simp only [mousemoveHandler, setTransform, h]

/-- Claim C10: for a pointer inside the viewport the angles the mousemove
handler applies (read back from the transform it writes) are bounded by the
viewport size, `|rotateX| ≤ h/100` and `|rotateY| ≤ w/100` degrees, with
equality exactly when the pointer is on the corresponding viewport edge;
mirroring the pointer through the viewport centre negates both angles. -/
theorem tilt_angles_bounded (window : Window) (e : MouseEvent) (c : Element)
    (hx0 : 0 ≤ e.clientX) (hx1 : e.clientX ≤ window.innerWidth)
    (hy0 : 0 ≤ e.clientY) (hy1 : e.clientY ≤ window.innerHeight) :
    (mousemoveHandler window e (some c)).map (fun c1 => parseTransform c1.transform) =
      Except.ok (some (-xRotation e.clientY window.innerHeight,
        yRotation e.clientX window.innerWidth)) ∧
    |(-xRotation e.clientY window.innerHeight)| ≤ (window.innerHeight : ℚ) / 100 ∧
    |yRotation e.clientX window.innerWidth| ≤ (window.innerWidth : ℚ) / 100 ∧
    (|(-xRotation e.clientY window.innerHeight)| = (window.innerHeight : ℚ) / 100 ↔
      e.clientY = 0 ∨ e.clientY = window.innerHeight) ∧
    (|yRotation e.clientX window.innerWidth| = (window.innerWidth : ℚ) / 100 ↔
      e.clientX = 0 ∨ e.clientX = window.innerWidth) ∧
    (mousemoveHandler window
        ⟨window.innerWidth - e.clientX, window.innerHeight - e.clientY⟩ (some c)).map
      (fun c1 => parseTransform c1.transform) =
        Except.ok (some (-(-xRotation e.clientY window.innerHeight),
          -yRotation e.clientX window.innerWidth)) := by
  have qx0 : (0 : ℚ) ≤ (e.clientX : ℚ) := by exact_mod_cast hx0
  have qx1 : (e.clientX : ℚ) ≤ (window.innerWidth : ℚ) := by exact_mod_cast hx1
  have qy0 : (0 : ℚ) ≤ (e.clientY : ℚ) := by exact_mod_cast hy0
  have qy1 : (e.clientY : ℚ) ≤ (window.innerHeight : ℚ) := by exact_mod_cast hy1
  refine ⟨?_, ?_, ?_, ?_, ?_, ?_⟩
  · have h := parseTransform_tiltTransform _ _ (xRotation_den e.clientY window.innerHeight)
      (yRotation_den e.clientX window.innerWidth)
    simp only [mousemoveHandler, setTransform, Except.map, h]
  · rw [abs_neg, xRotation]
    exact abs_angle_le _ _ qy0 qy1
  · rw [yRotation]
    exact abs_angle_le _ _ qx0 qx1
  · rw [abs_neg, xRotation, abs_angle_eq_iff _ _ qy0 qy1]
    norm_cast
  · rw [yRotation, abs_angle_eq_iff _ _ qx0 qx1]
    norm_cast
  · have h := parseTransform_tiltTransform _ _
      (xRotation_den (window.innerHeight - e.clientY) window.innerHeight)
      (yRotation_den (window.innerWidth - e.clientX) window.innerWidth)
    have hx : xRotation (window.innerHeight - e.clientY) window.innerHeight =
        -xRotation e.clientY window.innerHeight := by
      simp only [xRotation]
      push_cast
      ring
    have hy : yRotation (window.innerWidth - e.clientX) window.innerWidth =
        -yRotation e.clientX window.innerWidth := by
      simp only [yRotation]
      push_cast
      ring
    rw [hx, hy] at h
    simp only [mousemoveHandler, setTransform, Except.map, hx, hy, h]

/-- Witness for C10: viewport 1000x800 with the pointer at (250, 800), on the
bottom edge. -/
theorem tilt_angles_bounded_witness :
    |(-xRotation 800 800)| ≤ ((800 : Int) : ℚ) / 100 ∧
    |yRotation 250 1000| ≤ ((1000 : Int) : ℚ) / 100 :=
  ⟨(tilt_angles_bounded ⟨1000, 800⟩ ⟨250, 800⟩ ⟨"none"⟩
      (by decide) (by decide) (by decide) (by decide)).2.1,
    (tilt_angles_bounded ⟨1000, 800⟩ ⟨250, 800⟩ ⟨"none"⟩
      (by decide) (by decide) (by decide) (by decide)).2.2.1⟩

end Azimut
